import Mathlib

/-!
Verification development for the Relay desktop-automation agent
(`relay/core/vision_engine.py`, `relay/core/automation_engine.py`,
`relay/core/task_controller.py`).

The Python source is shallowly embedded: pure helpers become Lean
functions, the stateful task loop becomes explicit state passing with a
fuel argument that mirrors the `current_iteration < max_iterations`
guard, and the external collaborators (the OpenAI oracle transport, the
JSON decoder, `pyautogui` screen queries) become explicit function or
value parameters.  Python `float` arithmetic is modelled exactly over
`ℚ`; Python `int` over `ℤ`; Python truthiness of `Optional` values over
`Option`.
-/

namespace Relay

/-! ## Python string primitives used by the source -/

/-- Python `needle` is a prefix of `hay` (character lists). -/
def charsStartsWith : List Char → List Char → Bool
  | [], _ => true
  | _ :: _, [] => false
  | a :: as, b :: bs => a = b && charsStartsWith as bs

/-- Python substring containment `needle in hay` on character lists:
`needle` occurs contiguously in `hay`. -/
def charsContains (hay needle : List Char) : Bool :=
  charsStartsWith needle hay ||
    match hay with
    | [] => false
    | _ :: t => charsContains t needle

/-- Python `needle in hay` for strings. -/
def strContains (hay needle : String) : Bool :=
  charsContains hay.data needle.data

/-- Python `str.lower()` (ASCII behaviour, which is all the source's
keyword matching relies on): lower-case every character. -/
def lowerStr (s : String) : String :=
  String.mk (s.data.map Char.toLower)

/-! ## `vision_engine.ActionPlan` -/

/-- `ActionPlan` dataclass from `vision_engine.py`.  Coordinates are kept
in `ℚ × ℚ` because at runtime the tuple may hold Python floats (ratio
coordinates) as well as ints; `confidence` is a Python int. -/
structure ActionPlan where
  action_type : String
  target_description : String
  coordinates : Option (ℚ × ℚ) := none
  text : Option String := none
  confidence : Int := 5
  reasoning : String := ""
  verification_criteria : Option String := none
deriving DecidableEq, Repr

/-! ## Vision-engine plan validation (`VisionEngine._validate_action_plan`) -/

/-- `VisionEngine.destructive_actions`. -/
def visionDestructiveActions : List String :=
  ["delete", "format", "uninstall", "shutdown"]

/-- The `valid_types` list inside `_validate_action_plan`. -/
def validTypes : List String :=
  ["click", "double_click", "right_click", "type", "scroll", "wait",
   "verify", "navigate", "hotkey", "move", "drag"]

/-- The `click_actions` list inside `_validate_action_plan`. -/
def clickActions : List String :=
  ["click", "double_click", "right_click", "navigate", "move", "drag"]

/-- `any(destructive in target_description.lower() for destructive in
self.destructive_actions)` from `_validate_action_plan`. -/
def visionDestructiveHit (p : ActionPlan) : Bool :=
  visionDestructiveActions.any (fun d => strContains (lowerStr p.target_description) d)

/-- `VisionEngine._validate_action_plan`, check for check in source
order: destructive keyword with confidence `< 8`; confidence outside
`[1,10]`; unrecognised `action_type`; click-family action without
coordinates. -/
def validateActionPlan (p : ActionPlan) : Bool :=
  if visionDestructiveHit p ∧ p.confidence < 8 then false
  else if ¬ (1 ≤ p.confidence ∧ p.confidence ≤ 10) then false
  else if ¬ validTypes.contains p.action_type then false
  else if clickActions.contains p.action_type ∧ p.coordinates = none then false
  else true

/-! ## Automation-engine safety validation
(`AutomationEngine._validate_action_safety`) -/

/-- Keys of the `AutomationEngine.allowed_actions` dict (every value in
the dict is `True`; `dict.get(key, False)` is membership here). -/
def allowedActions : List String :=
  ["click", "type", "scroll", "wait", "verify", "navigate", "hotkey",
   "move", "double_click", "right_click", "drag"]

/-- `destructive_keywords` local list in `_validate_action_safety`. -/
def autoDestructiveKeywords : List String :=
  ["delete", "remove", "uninstall", "format", "shutdown"]

/-- The destructive-keyword test in `_validate_action_safety`. -/
def autoDestructiveHit (p : ActionPlan) : Bool :=
  autoDestructiveKeywords.any (fun d => strContains (lowerStr p.target_description) d)

/-- `AutomationEngine._validate_action_safety`.  `screenW`/`screenH`
stand for `pyautogui.size()` (an external sensor query). -/
def validateActionSafety (p : ActionPlan) (screenW screenH : ℕ) : Bool :=
  if ¬ allowedActions.contains p.action_type then false
  else if autoDestructiveHit p ∧ p.confidence < 8 then false
  else
    match p.coordinates with
    | some (x, y) =>
        if ¬ (0 ≤ x ∧ x ≤ (screenW : ℚ) ∧ 0 ≤ y ∧ y ≤ (screenH : ℚ)) then false
        else true
    | none => true

/-! ## Coordinate Mapper (`VisionEngine._map_coordinates`) -/

/-- Python `int(q)` on a real value: truncation toward zero (floor for
nonnegative values, ceiling for negative ones). -/
def pyInt (q : ℚ) : ℤ :=
  if 0 ≤ q then q.floor else q.ceil

/-- The pure screen-mapping stage of `_map_coordinates`:
`scale = screen/screenshot` per axis, `int(value * scale)`. -/
def screenMap (p : ℚ × ℚ) (shotW shotH screenW screenH : ℕ) : ℚ × ℚ :=
  ((pyInt (p.1 * screenW / shotW) : ℚ), (pyInt (p.2 * screenH / shotH) : ℚ))

/-- The ratio-detection test in `_map_coordinates`:
`0 <= x <= 1 and 0 <= y <= 1`. -/
def isRatioPair (x y : ℚ) : Prop :=
  0 ≤ x ∧ x ≤ 1 ∧ 0 ≤ y ∧ y ≤ 1

instance (x y : ℚ) : Decidable (isRatioPair x y) := by
  unfold isRatioPair; infer_instance

/-- `VisionEngine._map_coordinates`.  A zero screenshot dimension makes
the Python body raise `ZeroDivisionError` at the `scale` computation,
which the surrounding `except` turns into returning the original
coordinates; every other path is the ratio conversion followed by the
per-axis scaling. -/
def mapCoordinates (coords : ℚ × ℚ) (shotW shotH screenW screenH : ℕ) : ℚ × ℚ :=
  if shotW = 0 ∨ shotH = 0 then coords
  else
    screenMap
      (if isRatioPair coords.1 coords.2 then (coords.1 * shotW, coords.2 * shotH)
       else coords)
      shotW shotH screenW screenH

/-! ## Oracle response parsing (`VisionEngine._parse_action_response`) -/

/-- The JSON object shape the parser reads from the oracle response;
`none` is both "key absent" and "key null" (`dict.get` returns `None`
for both). -/
structure OracleData where
  action_type : Option String := none
  target_description : Option String := none
  coordinates : Option (List ℚ) := none
  coordinates_pct : Option (List ℚ) := none
  text : Option String := none
  confidence : Option Int := none
  reasoning : Option String := none
  verification_criteria : Option String := none
deriving DecidableEq, Repr

/-- Python `find(c)`: index of the first occurrence, `-1` if absent. -/
def pyFind (s : String) (c : Char) : Int :=
  match s.data.indexOf? c with
  | some i => (i : Int)
  | none => -1

/-- Python `rfind(c)`: index of the last occurrence, `-1` if absent. -/
def pyRfind (s : String) (c : Char) : Int :=
  match s.data.reverse.indexOf? c with
  | some i => ((s.data.length - 1 - i : ℕ) : Int)
  | none => -1

/-- Effective index of a Python slice bound for a sequence of length
`len` (negative indices count from the end, then clamp to `[0,len]`). -/
def pySliceIdx (len : ℕ) (i : Int) : ℕ :=
  if i < 0 then (len + i).toNat.min len else i.toNat.min len

/-- Python `s[start:stop]`. -/
def pySlice (s : String) (start stop : Int) : String :=
  let a := pySliceIdx s.data.length start
  let b := pySliceIdx s.data.length stop
  String.mk ((s.data.drop a).take (b - a))

/-- The brace extraction in `_parse_action_response` (and every other
response parser in the source): `text[text.find("\x7b") : text.rfind("\x7d")+1]`. -/
def extractBraces (s : String) : String :=
  pySlice s (pyFind s '{') (pyRfind s '}' + 1)

/-- `VisionEngine._create_fallback_action`. -/
def fallbackAction : ActionPlan :=
  { action_type := "wait"
    target_description := "Waiting for system to stabilize"
    confidence := 1
    reasoning := "Vision analysis failed, taking safe fallback action"
    verification_criteria := some "Screen appears stable" }

/-- Truthiness-plus-length test `data.get(k) and len(data[k]) == 2` used
for both coordinate fields (an absent key, a JSON `null` and an empty
list are all falsy). -/
def hasTwo (l : Option (List ℚ)) : Bool :=
  match l with
  | some xs => ¬ xs.isEmpty ∧ xs.length = 2
  | none => false

/-- `tuple(xs)` for a length-2 list. -/
def pairOfList (xs : List ℚ) : ℚ × ℚ :=
  (xs.headD 0, (xs.drop 1).headD 0)

/-- `VisionEngine._parse_action_response`, with the JSON decoder
(`json.loads`, an external library) abstracted as `decode`; a decoder
failure models `json.JSONDecodeError`, which this function catches by
returning the fallback plan.  `coordinates_pct` takes precedence over
`coordinates`. -/
def parseActionResponse (decode : String → Option OracleData) (responseText : String) :
    ActionPlan :=
  match decode (extractBraces responseText) with
  | none => fallbackAction
  | some data =>
      let coordinates : Option (ℚ × ℚ) :=
        if hasTwo data.coordinates_pct then
          (data.coordinates_pct.map pairOfList)
        else if hasTwo data.coordinates then
          (data.coordinates.map pairOfList)
        else none
      { action_type := data.action_type.getD "wait"
        target_description := data.target_description.getD "Unknown target"
        coordinates := coordinates
        text := data.text
        confidence := data.confidence.getD 5
        reasoning := data.reasoning.getD ""
        verification_criteria := data.verification_criteria }

/-! ## `VisionEngine.analyze_screenshot` -/

/-- The plan produced by `analyze_screenshot` just before the
`_validate_action_plan` call: parse, then map coordinates when present. -/
def planAfterMapping (decode : String → Option OracleData) (responseText : String)
    (shotW shotH screenW screenH : ℕ) : ActionPlan :=
  let plan := parseActionResponse decode responseText
  match plan.coordinates with
  | some c => { plan with coordinates := some (mapCoordinates c shotW shotH screenW screenH) }
  | none => plan

/-- `VisionEngine.analyze_screenshot`.  The oracle transport is
abstracted as `transport` (`none` models an exception from the API
call); the outer `except Exception` branch returns the fallback plan, as
does the `ValueError` raised on validation failure. -/
def analyzeScreenshot (transport : Option String) (decode : String → Option OracleData)
    (shotW shotH screenW screenH : ℕ) : ActionPlan :=
  match transport with
  | none => fallbackAction
  | some responseText =>
      let plan := planAfterMapping decode responseText shotW shotH screenW screenH
      if validateActionPlan plan then plan else fallbackAction

/-! ## `automation_engine.ExecutionResult` and the Verifier stage -/

/-- Captured frames are opaque to the control logic; an abstract handle
suffices. -/
abbrev Frame := ℕ

/-- `ExecutionResult` dataclass from `automation_engine.py`. -/
structure ExecutionResult where
  success : Bool
  error_message : Option String := none
  before_screenshot : Option Frame := none
  after_screenshot : Option Frame := none
  execution_time : ℚ := 0
  action_verified : Bool := false
  verification_message : Option String := none
deriving DecidableEq, Repr

/-- The structured verdict `_ask_ai_for_verification` extracts from the
oracle (that call catches its own exceptions and always returns a dict
of this shape, with `verified := false` on any fault). -/
structure VerificationVerdict where
  verified : Bool
  message : String
  confidence : Int := 1
  evidence : String := ""
deriving DecidableEq, Repr

/-- `AutomationEngine._verify_action_success`, with the oracle
comparison abstracted as `verdict`: a non-verified verdict downgrades
`success` and installs a verification error message; missing frames
skip verification without downgrading. -/
def verifyActionSuccess (verdict : VerificationVerdict) (result : ExecutionResult) :
    ExecutionResult :=
  if result.before_screenshot = none ∨ result.after_screenshot = none then
    { result with
        action_verified := false
        verification_message := some "Missing screenshots for verification" }
  else if verdict.verified then
    { result with
        action_verified := true
        verification_message := some verdict.message }
  else
    { result with
        action_verified := false
        verification_message := some verdict.message
        success := false
        error_message := some ("Action verification failed: " ++ verdict.message) }

/-- The verification step at the end of `AutomationEngine.execute_action`:
`if self.vision_engine and result.success: result = self._verify_action_success(...)`. -/
def executeActionVerifyStage (hasVision : Bool) (verdict : VerificationVerdict)
    (result : ExecutionResult) : ExecutionResult :=
  if hasVision ∧ result.success then verifyActionSuccess verdict result else result

/-! ## Confirmation policy (`AutomationEngine._requires_confirmation`,
`_get_user_confirmation`) and the head of `execute_action` -/

/-- `AutomationEngine.confirmation_required`. -/
def confirmationRequired : List String :=
  ["delete", "purchase", "confirm", "submit"]

/-- `AutomationEngine._requires_confirmation`. -/
def requiresConfirmation (p : ActionPlan) : Bool :=
  confirmationRequired.any (fun k => strContains (lowerStr p.target_description) k)

/-- `AutomationEngine._get_user_confirmation`, exactly as in the source:
it unconditionally returns `True` ("For now, return True (allow
action)") — no external approval is ever requested. -/
def getUserConfirmation (_ : ActionPlan) : Bool :=
  true

/-- Outcome of the guard sequence at the top of
`AutomationEngine.execute_action`, before dispatch on `action_type`. -/
inductive ExecuteGate where
  | emergencyStopped
  | safetyBlocked
  | declined
  | dispatch
deriving DecidableEq, Repr

/-- The guard sequence at the top of `AutomationEngine.execute_action`:
emergency stop, then `_validate_action_safety`, then the confirmation
policy, and otherwise fall through to the per-action dispatch. -/
def executeActionGate (emergencyStop : Bool) (p : ActionPlan) (screenW screenH : ℕ) :
    ExecuteGate :=
  if emergencyStop then ExecuteGate.emergencyStopped
  else if ¬ validateActionSafety p screenW screenH then ExecuteGate.safetyBlocked
  else if requiresConfirmation p ∧ ¬ getUserConfirmation p then ExecuteGate.declined
  else ExecuteGate.dispatch

/-! ## Click Confirmation Negotiator (`AutomationEngine._execute_click`) -/

/-- The dict returned by `VisionEngine.confirm_click` (that method
catches its own exceptions, so every oracle call yields such a value; on
failure it is `confirm := false`, no suggestion). -/
structure ConfirmResponse where
  confirm : Bool
  suggested_coordinates : Option (ℤ × ℤ) := none
  confidence : Int := 1
  reasoning : String := ""
deriving DecidableEq, Repr

/-- Terminal outcome of the confirmation loop inside `_execute_click`. -/
inductive ClickNegotiation where
  /-- The loop exited with a confirmation; the click is performed at `p`
  and `_execute_click` returns a successful `ExecutionResult`. -/
  | proceed (p : ℤ × ℤ)
  /-- `return ExecutionResult(False, "Click not confirmed by AI")`. -/
  | abortNoAlternative
  /-- `return ExecutionResult(False, "Max confirmation attempts reached
  without approval")`. -/
  | abortBudget
deriving DecidableEq, Repr

/-- The `while attempts < self.max_click_retries` loop of
`_execute_click` together with the post-loop budget check, for
`max_click_retries ≥ 1`.  `oracle i` is the result of the `(i+1)`-st
`confirm_click` call; the returned `ℕ` counts oracle calls made.  Each
loop entry makes exactly one call; `fuel` is the remaining retry budget
`max_click_retries - attempts`, so `fuel = 0` is the normal loop exit,
where the last response was necessarily non-confirming and the source
returns the budget abort. -/
def confirmLoop (oracle : ℕ → ConfirmResponse) (p : ℤ × ℤ) (calls : ℕ) :
    ℕ → ClickNegotiation × ℕ
  | 0 => (ClickNegotiation.abortBudget, calls)
  | fuel + 1 =>
      let r := oracle calls
      if r.confirm then (ClickNegotiation.proceed p, calls + 1)
      else
        match r.suggested_coordinates with
        | some q => confirmLoop oracle q (calls + 1) fuel
        | none => (ClickNegotiation.abortNoAlternative, calls + 1)

/-- The negotiation portion of `_execute_click`: start at the planned
point with zero attempts. -/
def negotiateClick (oracle : ℕ → ConfirmResponse) (maxRetries : ℕ) (p : ℤ × ℤ) :
    ClickNegotiation × ℕ :=
  confirmLoop oracle p 0 maxRetries

/-- The `ExecutionResult` (success flag and error message)
`_execute_click` produces from each negotiation outcome. -/
def negotiationResult : ClickNegotiation → Bool × Option String
  | ClickNegotiation.proceed _ => (true, none)
  | ClickNegotiation.abortNoAlternative => (false, some "Click not confirmed by AI")
  | ClickNegotiation.abortBudget =>
      (false, some "Max confirmation attempts reached without approval")

/-! ## `vision_engine.VisionContext` and the bounded histories -/

/-- `VisionContext` dataclass (the PerceptionContext of the spec);
screenshots are stored base64-encoded, abstracted here as `Frame`s. -/
structure VisionContext where
  task_description : String
  previous_actions : List ActionPlan
  screenshots_history : List Frame
  current_screenshot : Frame
  iteration_count : ℕ := 0
deriving DecidableEq, Repr

/-- `TaskController._handle_successful_action`'s effect on the context:
append the plan, and when an after-frame exists append it and evict the
oldest frame past 10 (`pop(0)`). -/
def handleSuccessfulContext (ctx : VisionContext) (plan : ActionPlan)
    (afterShot : Option Frame) : VisionContext :=
  let ctx := { ctx with previous_actions := ctx.previous_actions ++ [plan] }
  match afterShot with
  | some s =>
      let hist := ctx.screenshots_history ++ [s]
      { ctx with screenshots_history := if hist.length > 10 then hist.drop 1 else hist }
  | none => ctx

/-- Python `l[-n:]`. -/
def lastN (l : List α) (n : ℕ) : List α :=
  l.drop (l.length - n)

/-- The action history consulted by the oracle prompt:
`context.previous_actions[-5:]` in
`VisionEngine._build_context_messages`. -/
def recentActions (ctx : VisionContext) : List ActionPlan :=
  lastN ctx.previous_actions 5

/-- The context created at the top of
`TaskController._execute_task_loop`. -/
def initialContext (task : String) : VisionContext :=
  { task_description := task
    previous_actions := []
    screenshots_history := []
    current_screenshot := 0 }

/-! ## Task Controller loop (`TaskController._execute_task_loop`)

The loop is embedded as explicit state passing.  External inputs:
`outcomes i` is the boolean result of the `(i+1)`-st
`_execute_iteration` call (that method catches its own exceptions and
returns a bool), and `estop i` is the value of
`automation_engine.emergency_stop` observed at the iteration boundary
before the `(i+1)`-st iteration.  `should_stop` and `is_paused` are not
engaged (no external `stop_task`/`pause_task` call): a pause merely
idles the loop without changing state, and `should_stop` stays `False`
for the whole run. -/

/-- The `TaskStatus` fields the loop manipulates. -/
structure TaskStatusM where
  is_running : Bool := true
  is_complete : Bool := false
  current_iteration : ℕ := 0
  error_message : Option String := none
deriving DecidableEq, Repr

/-- Loop-level state: the status object, the
`TaskController.consecutive_failures` counter, and the trace of
`_notify_completion(success, message)` calls made so far. -/
structure LoopState where
  status : TaskStatusM := {}
  consecutive_failures : ℕ := 0
  notices : List (Bool × String) := []
deriving DecidableEq, Repr

/-- `TaskController._notify_completion` (the completion callbacks are
observers; the trace records each invocation). -/
def notifyCompletion (s : LoopState) (ok : Bool) (msg : String) : LoopState :=
  { s with notices := s.notices ++ [(ok, msg)] }

/-- `TaskController._handle_emergency_stop`. -/
def handleEmergencyStop (s : LoopState) : LoopState :=
  let s := { s with status := { s.status with
    error_message := some "Emergency stop activated", is_running := false } }
  notifyCompletion s false "Emergency stop"

/-- The interpolated message of `_handle_max_failures`. -/
def maxFailuresMsg (n : ℕ) : String :=
  "Max failures reached: " ++ toString n

/-- `TaskController._handle_max_failures`. -/
def handleMaxFailures (s : LoopState) : LoopState :=
  let s := { s with status := { s.status with
    error_message := some (maxFailuresMsg s.consecutive_failures), is_running := false } }
  notifyCompletion s false "Max failures reached"

/-- `TaskController._handle_task_completion`: runs after every loop
exit; marks the task complete and notifies once more, failure-flavoured
when an error message was recorded. -/
def handleTaskCompletion (s : LoopState) : LoopState :=
  let s := { s with status := { s.status with is_running := false, is_complete := true } }
  match s.status.error_message with
  | some e => notifyCompletion s false e
  | none => notifyCompletion s true "Task completed"

/-- The unconditional `current_iteration += 1` at the top of
`_execute_iteration`. -/
def bumpIteration (s : LoopState) : LoopState :=
  { s with status := { s.status with current_iteration := s.status.current_iteration + 1 } }

/-- One pass of the `while` body plus the loop guard, driven by `fuel =
max_iterations - current_iteration` (the guard `current_iteration <
max_iterations` is exactly `fuel > 0` because every iteration adds one
to both sides).  The `not self.task_status.is_complete` guard conjunct
is checked as in the source. -/
def taskLoopAux (estop outcomes : ℕ → Bool) (maxFailures : ℕ) :
    ℕ → LoopState → LoopState
  | 0, s => handleTaskCompletion s
  | fuel + 1, s =>
      if s.status.is_complete then handleTaskCompletion s
      else if estop s.status.current_iteration then
        handleTaskCompletion (handleEmergencyStop s)
      else
        let ok := outcomes s.status.current_iteration
        let s1 := bumpIteration s
        if ok then
          taskLoopAux estop outcomes maxFailures fuel { s1 with consecutive_failures := 0 }
        else
          let s2 := { s1 with consecutive_failures := s1.consecutive_failures + 1 }
          if maxFailures ≤ s2.consecutive_failures then
            handleTaskCompletion (handleMaxFailures s2)
          else
            taskLoopAux estop outcomes maxFailures fuel s2

/-- `TaskController._execute_task_loop` from the state `execute_task`
sets up (fresh status, counter reset to zero). -/
def runTaskLoop (estop outcomes : ℕ → Bool) (maxIterations maxFailures : ℕ) : LoopState :=
  taskLoopAux estop outcomes maxFailures maxIterations {}

/-- Length of the maximal all-failure suffix of the first `n` iteration
outcomes: the reference value of the consecutive-failure counter. -/
def consecAfter (outcomes : ℕ → Bool) : ℕ → ℕ
  | 0 => 0
  | n + 1 => if outcomes n then 0 else consecAfter outcomes n + 1

/-- Fold a run of successful iterations over a fresh context (how the
Task Controller grows the two bounded histories during a run). -/
def runContextEvents (task : String) (events : List (ActionPlan × Option Frame)) :
    VisionContext :=
  events.foldl (fun ctx e => handleSuccessfulContext ctx e.1 e.2) (initialContext task)

/-- A concrete plan whose target description matches the confirmation
keyword set and passes every safety check. -/
def confirmationExamplePlan : ActionPlan :=
  { action_type := "click"
    target_description := "Purchase the premium plan"
    coordinates := some (10, 10)
    confidence := 5 }

/-- Post-condition established by every exit of the embedded task loop
(used only inside the loop induction below): the completion handler has
run, the counter tracks the failure suffix, and the error message and
completion-notification trace are in one of the three terminal shapes. -/
def LoopPost (estop outcomes : ℕ → Bool) (maxFailures : ℕ) (t : LoopState) : Prop :=
  t.status.is_complete = true ∧
  t.status.is_running = false ∧
  t.consecutive_failures = consecAfter outcomes t.status.current_iteration ∧
  t.consecutive_failures ≤ maxFailures ∧
  ((t.status.error_message = none ∧ t.consecutive_failures < maxFailures ∧
      t.notices = [(true, "Task completed")]) ∨
   (t.status.error_message = some "Emergency stop activated" ∧
      t.consecutive_failures < maxFailures ∧ (∃ k, estop k = true) ∧
      t.notices = [(false, "Emergency stop"), (false, "Emergency stop activated")]) ∨
   (t.status.error_message = some (maxFailuresMsg maxFailures) ∧
      t.consecutive_failures = maxFailures ∧
      t.notices = [(false, "Max failures reached"), (false, maxFailuresMsg maxFailures)]))

/-! # Theorems -/

/-! ## Helper lemmas for the Click Confirmation Negotiator -/

lemma confirmLoop_zero (oracle : ℕ → ConfirmResponse) (p : ℤ × ℤ) (calls : ℕ) :
    confirmLoop oracle p calls 0 = (ClickNegotiation.abortBudget, calls) :=
  rfl

lemma confirmLoop_succ_confirm (oracle : ℕ → ConfirmResponse) (p : ℤ × ℤ)
    (calls f : ℕ) (hc : (oracle calls).confirm = true) :
    confirmLoop oracle p calls (f + 1) = (ClickNegotiation.proceed p, calls + 1) := by
  simp [confirmLoop, hc]

lemma confirmLoop_succ_retry (oracle : ℕ → ConfirmResponse) (p q : ℤ × ℤ)
    (calls f : ℕ) (hc : (oracle calls).confirm = false)
    (hs : (oracle calls).suggested_coordinates = some q) :
    confirmLoop oracle p calls (f + 1) = confirmLoop oracle q (calls + 1) f := by
  simp [confirmLoop, hc, hs]

lemma confirmLoop_succ_noalt (oracle : ℕ → ConfirmResponse) (p : ℤ × ℤ)
    (calls f : ℕ) (hc : (oracle calls).confirm = false)
    (hs : (oracle calls).suggested_coordinates = none) :
    confirmLoop oracle p calls (f + 1) = (ClickNegotiation.abortNoAlternative, calls + 1) := by
  simp [confirmLoop, hc, hs]

lemma confirmLoop_calls_le (oracle : ℕ → ConfirmResponse) :
    ∀ (fuel : ℕ) (p : ℤ × ℤ) (calls : ℕ),
      (confirmLoop oracle p calls fuel).2 ≤ calls + fuel := by
  intro fuel
  induction fuel with
  | zero => intro p calls; rw [confirmLoop_zero]; omega
  | succ f ih =>
      intro p calls
      cases hc : (oracle calls).confirm with
      | true => rw [confirmLoop_succ_confirm oracle p calls f hc]; omega
      | false =>
          cases hs : (oracle calls).suggested_coordinates with
          | some q =>
              rw [confirmLoop_succ_retry oracle p q calls f hc hs]
              have := ih q (calls + 1)
              omega
          | none => rw [confirmLoop_succ_noalt oracle p calls f hc hs]; omega

lemma confirmLoop_budget_iff (oracle : ℕ → ConfirmResponse) :
    ∀ (fuel : ℕ) (p : ℤ × ℤ) (calls : ℕ),
      ((confirmLoop oracle p calls fuel).1 = ClickNegotiation.abortBudget ↔
        ∀ i, calls ≤ i → i < calls + fuel →
          (oracle i).confirm = false ∧ (oracle i).suggested_coordinates ≠ none) := by
  intro fuel
  induction fuel with
  | zero =>
      intro p calls
      rw [confirmLoop_zero]
      constructor
      · intro _ i h1 h2; omega
      · intro _; rfl
  | succ f ih =>
      intro p calls
      cases hc : (oracle calls).confirm with
      | true =>
          rw [confirmLoop_succ_confirm oracle p calls f hc]
          constructor
          · intro h; exact absurd h (by simp)
          · intro h
            have h0 := (h calls (le_refl _) (by omega)).1
            rw [h0] at hc; exact absurd hc (by simp)
      | false =>
          cases hs : (oracle calls).suggested_coordinates with
          | some q =>
              rw [confirmLoop_succ_retry oracle p q calls f hc hs]
              rw [ih q (calls + 1)]
              constructor
              · intro h i h1 h2
                rcases Nat.eq_or_lt_of_le h1 with h1' | h1'
                · rw [← h1']
                  refine ⟨hc, ?_⟩
                  rw [hs]; exact Option.some_ne_none q
                · exact h i h1' (by omega)
              · intro h i h1 h2
                exact h i (by omega) (by omega)
          | none =>
              rw [confirmLoop_succ_noalt oracle p calls f hc hs]
              constructor
              · intro h; exact absurd h (by simp)
              · intro h
                have h0 := (h calls (le_refl _) (by omega)).2
                rw [hs] at h0; exact absurd rfl h0

lemma confirmLoop_budget_calls (oracle : ℕ → ConfirmResponse) :
    ∀ (fuel : ℕ) (p : ℤ × ℤ) (calls : ℕ),
      (∀ i, calls ≤ i → i < calls + fuel →
        (oracle i).confirm = false ∧ (oracle i).suggested_coordinates ≠ none) →
      confirmLoop oracle p calls fuel = (ClickNegotiation.abortBudget, calls + fuel) := by
  intro fuel
  induction fuel with
  | zero => intro p calls _; rw [confirmLoop_zero, Nat.add_zero]
  | succ f ih =>
      intro p calls h
      have h0 := h calls (le_refl _) (by omega)
      cases hs : (oracle calls).suggested_coordinates with
      | some q =>
          rw [confirmLoop_succ_retry oracle p q calls f h0.1 hs]
          rw [ih q (calls + 1) (fun i h1 h2 => h i (by omega) (by omega))]
          rw [Prod.mk.injEq]
          exact ⟨rfl, by omega⟩
      | none => exact absurd hs h0.2

/-- C1.  Under any sequence of oracle confirmation responses, the click
confirmation loop in `AutomationEngine._execute_click` makes at most
`max_click_retries + 1` oracle calls; it ends in the budget abort
exactly when every response within the retry budget is non-confirming
but carries alternative coordinates (with exactly `max_click_retries`
calls made and a failed `ExecutionResult`); a non-confirming response
with no alternative aborts immediately after one call. -/
theorem click_negotiator_bounded (oracle : ℕ → ConfirmResponse) (maxRetries : ℕ)
    (p : ℤ × ℤ) (hmr : 1 ≤ maxRetries) :
    (negotiateClick oracle maxRetries p).2 ≤ maxRetries + 1 ∧
    ((negotiateClick oracle maxRetries p).1 = ClickNegotiation.abortBudget ↔
      ∀ i < maxRetries, (oracle i).confirm = false ∧
        (oracle i).suggested_coordinates ≠ none) ∧
    ((∀ i < maxRetries, (oracle i).confirm = false ∧
        (oracle i).suggested_coordinates ≠ none) →
      (negotiateClick oracle maxRetries p).2 = maxRetries ∧
      (negotiationResult (negotiateClick oracle maxRetries p).1).1 = false) ∧
    ((oracle 0).confirm = false → (oracle 0).suggested_coordinates = none →
      negotiateClick oracle maxRetries p = (ClickNegotiation.abortNoAlternative, 1)) := by
  refine ⟨?_, ?_, ?_, ?_⟩
  · have := confirmLoop_calls_le oracle maxRetries p 0
    unfold negotiateClick
    omega
  · unfold negotiateClick
    rw [confirmLoop_budget_iff oracle maxRetries p 0]
    constructor
    · intro h i hi; exact h i (by omega) (by omega)
    · intro h i _ hi; exact h i (by omega)
  · intro h
    unfold negotiateClick
    rw [confirmLoop_budget_calls oracle maxRetries p 0
      (fun i h1 h2 => h i (by omega))]
    exact ⟨by omega, rfl⟩
  · intro hc hs
    obtain ⟨f, rfl⟩ : ∃ f, maxRetries = f + 1 := ⟨maxRetries - 1, by omega⟩
    unfold negotiateClick
    rw [confirmLoop_succ_noalt oracle p 0 f hc hs]

/-- C1 witness: with the default `max_click_retries = 3` and every
response non-confirming with an alternative, the negotiation makes
exactly 3 calls (≤ 4) and ends in the budget abort. -/
theorem click_negotiator_bounded_witness :
    (negotiateClick (fun _ => { confirm := false, suggested_coordinates := some (1, 2) })
        3 (5, 5)).2 = 3 ∧
    (negotiateClick (fun _ => { confirm := false, suggested_coordinates := some (1, 2) })
        3 (5, 5)).1 = ClickNegotiation.abortBudget := by
  have h := click_negotiator_bounded
    (fun _ => { confirm := false, suggested_coordinates := some (1, 2) }) 3 (5, 5)
    (by decide)
  refine ⟨(h.2.2.1 ?_).1, h.2.1.mpr ?_⟩ <;>
    exact fun i _ => by simp

/-! ## C2: destructive-keyword confidence boundary -/

/-- C2.  For a plan whose target description triggers the destructive
keyword test of each component and which passes that component's
remaining checks, both `VisionEngine._validate_action_plan` and
`AutomationEngine._validate_action_safety` accept exactly when the
confidence is at least 8 (so `c = 8` is accepted and `c = 7` is
rejected). -/
theorem destructive_confidence_boundary (p : ActionPlan) (screenW screenH : ℕ)
    (hc1 : 1 ≤ p.confidence) (hc10 : p.confidence ≤ 10)
    (hvd : visionDestructiveHit p = true)
    (had : autoDestructiveHit p = true)
    (hty : validTypes.contains p.action_type = true)
    (hclick : clickActions.contains p.action_type = true → p.coordinates ≠ none)
    (hallow : allowedActions.contains p.action_type = true)
    (hbounds : ∀ x y, p.coordinates = some (x, y) →
      0 ≤ x ∧ x ≤ (screenW : ℚ) ∧ 0 ≤ y ∧ y ≤ (screenH : ℚ)) :
    (validateActionPlan p = true ↔ 8 ≤ p.confidence) ∧
    (validateActionSafety p screenW screenH = true ↔ 8 ≤ p.confidence) := by
  by_cases h8 : 8 ≤ p.confidence
  · constructor
    · refine iff_of_true ?_ h8
      unfold validateActionPlan
      rw [if_neg (by rw [hvd]; omega)]
      rw [if_neg (by omega)]
      rw [if_neg (by rw [hty]; simp)]
      rw [if_neg ?_]
      rintro ⟨hca, hco⟩
      exact hclick hca hco
    · refine iff_of_true ?_ h8
      unfold validateActionSafety
      rw [if_neg (by rw [hallow]; simp)]
      rw [if_neg (by rw [had]; omega)]
      cases hco : p.coordinates with
      | none => rfl
      | some xy =>
          obtain ⟨x, y⟩ := xy
          show (if ¬ (0 ≤ x ∧ x ≤ (screenW : ℚ) ∧ 0 ≤ y ∧ y ≤ (screenH : ℚ))
            then false else true) = true
          rw [if_neg (not_not_intro (hbounds x y hco))]
  · have h7 : p.confidence < 8 := by omega
    constructor
    · refine iff_of_false ?_ h8
      rw [Bool.not_eq_true]
      unfold validateActionPlan
      rw [if_pos (by rw [hvd]; exact ⟨rfl, h7⟩)]
    · refine iff_of_false ?_ h8
      rw [Bool.not_eq_true]
      unfold validateActionSafety
      rw [if_neg (by rw [hallow]; simp)]
      rw [if_pos (by rw [had]; exact ⟨rfl, h7⟩)]

/-- C2 witness: a concrete destructive-keyword click plan is rejected by
both validators at confidence 7 and accepted by both at confidence 8. -/
theorem destructive_confidence_boundary_witness :
    (validateActionPlan { action_type := "click",
                          target_description := "Delete the file",
                          coordinates := some (10, 10), confidence := 7 } = false ∧
     validateActionSafety { action_type := "click",
                            target_description := "Delete the file",
                            coordinates := some (10, 10), confidence := 7 } 100 100 = false) ∧
    (validateActionPlan { action_type := "click",
                          target_description := "Delete the file",
                          coordinates := some (10, 10), confidence := 8 } = true ∧
     validateActionSafety { action_type := "click",
                            target_description := "Delete the file",
                            coordinates := some (10, 10), confidence := 8 } 100 100 = true) := by
  have hb : ∀ x y : ℚ, (some ((10 : ℚ), (10 : ℚ)) : Option (ℚ × ℚ)) = some (x, y) →
      0 ≤ x ∧ x ≤ ((100 : ℕ) : ℚ) ∧ 0 ≤ y ∧ y ≤ ((100 : ℕ) : ℚ) := by
    intro x y h
    rw [Option.some_inj, Prod.mk.injEq] at h
    rw [← h.1, ← h.2]
    norm_num
  have h7 := destructive_confidence_boundary
    { action_type := "click",
      target_description := "Delete the file",
      coordinates := some (10, 10), confidence := 7 } 100 100
    (by decide) (by decide) (by decide) (by decide) (by decide)
    (fun _ => by decide) (by decide) hb
  have h8 := destructive_confidence_boundary
    { action_type := "click",
      target_description := "Delete the file",
      coordinates := some (10, 10), confidence := 8 } 100 100
    (by decide) (by decide) (by decide) (by decide) (by decide)
    (fun _ => by decide) (by decide) hb
  refine ⟨⟨?_, ?_⟩, h8.1.mpr (by decide), h8.2.mpr (by decide)⟩
  · rw [Bool.eq_false_iff]
    intro hv
    exact absurd (h7.1.mp hv) (by decide)
  · rw [Bool.eq_false_iff]
    intro hv
    exact absurd (h7.2.mp hv) (by decide)

/-! ## Helper lemmas for the task loop -/

lemma maxFailuresMsg_ne_emergency (n : ℕ) :
    maxFailuresMsg n ≠ "Emergency stop activated" := by
  intro h
  have h2 : ("Max failures reached: " : String).data ++ (toString n).data
      = ("Emergency stop activated" : String).data := by
    rw [← h]; rfl
  have h3 : (['M'] : List Char) = ['E'] :=
    congrArg (fun l : List Char => l.take 1) h2
  exact absurd h3 (by decide)

lemma taskLoopAux_zero (estop outcomes : ℕ → Bool) (mf : ℕ) (s : LoopState) :
    taskLoopAux estop outcomes mf 0 s = handleTaskCompletion s :=
  rfl

lemma taskLoopAux_succ_estop (estop outcomes : ℕ → Bool) (mf f : ℕ) (s : LoopState)
    (h1 : s.status.is_complete = false)
    (he : estop s.status.current_iteration = true) :
    taskLoopAux estop outcomes mf (f + 1) s =
      handleTaskCompletion (handleEmergencyStop s) := by
  simp [taskLoopAux, h1, he]

lemma taskLoopAux_succ_ok (estop outcomes : ℕ → Bool) (mf f : ℕ) (s : LoopState)
    (h1 : s.status.is_complete = false)
    (he : estop s.status.current_iteration = false)
    (ho : outcomes s.status.current_iteration = true) :
    taskLoopAux estop outcomes mf (f + 1) s =
      taskLoopAux estop outcomes mf f
        { bumpIteration s with consecutive_failures := 0 } := by
  simp [taskLoopAux, h1, he, ho]

lemma taskLoopAux_succ_failmax (estop outcomes : ℕ → Bool) (mf f : ℕ) (s : LoopState)
    (h1 : s.status.is_complete = false)
    (he : estop s.status.current_iteration = false)
    (ho : outcomes s.status.current_iteration = false)
    (hge : mf ≤ s.consecutive_failures + 1) :
    taskLoopAux estop outcomes mf (f + 1) s =
      handleTaskCompletion (handleMaxFailures
        { bumpIteration s with consecutive_failures := s.consecutive_failures + 1 }) := by
  simp [taskLoopAux, h1, he, ho, bumpIteration, hge]

lemma taskLoopAux_succ_fail (estop outcomes : ℕ → Bool) (mf f : ℕ) (s : LoopState)
    (h1 : s.status.is_complete = false)
    (he : estop s.status.current_iteration = false)
    (ho : outcomes s.status.current_iteration = false)
    (hlt : s.consecutive_failures + 1 < mf) :
    taskLoopAux estop outcomes mf (f + 1) s =
      taskLoopAux estop outcomes mf f
        { bumpIteration s with consecutive_failures := s.consecutive_failures + 1 } := by
  have hn : ¬ (mf ≤ s.consecutive_failures + 1) := by omega
  simp [taskLoopAux, h1, he, ho, bumpIteration, hn]

lemma taskLoopAux_spec (estop outcomes : ℕ → Bool) (maxFailures : ℕ)
    (hmf : 1 ≤ maxFailures) :
    ∀ (fuel : ℕ) (s : LoopState),
      s.status.is_complete = false →
      s.status.is_running = true →
      s.status.error_message = none →
      s.notices = [] →
      s.consecutive_failures = consecAfter outcomes s.status.current_iteration →
      s.consecutive_failures < maxFailures →
      LoopPost estop outcomes maxFailures (taskLoopAux estop outcomes maxFailures fuel s) := by
  intro fuel
  induction fuel with
  | zero =>
      intro s h1 h2 h3 h4 h5 h6
      rw [taskLoopAux_zero]
      unfold LoopPost handleTaskCompletion notifyCompletion
      simp only [h3, h4]
      refine ⟨by trivial, by trivial, h5, by omega, Or.inl ⟨by trivial, by simpa using h6, by simp⟩⟩
  | succ f ih =>
      intro s h1 h2 h3 h4 h5 h6
      cases he : estop s.status.current_iteration with
      | true =>
          rw [taskLoopAux_succ_estop estop outcomes maxFailures f s h1 he]
          unfold LoopPost handleTaskCompletion handleEmergencyStop notifyCompletion
          simp only [h4]
          refine ⟨by trivial, by trivial, h5, by omega, Or.inr (Or.inl ?_)⟩
          exact ⟨by trivial, by simpa using h6, ⟨s.status.current_iteration, he⟩, by simp⟩
      | false =>
          cases ho : outcomes s.status.current_iteration with
          | true =>
              rw [taskLoopAux_succ_ok estop outcomes maxFailures f s h1 he ho]
              refine ih _ ?_ ?_ ?_ ?_ ?_ ?_
              · simpa [bumpIteration] using h1
              · simpa [bumpIteration] using h2
              · simpa [bumpIteration] using h3
              · simpa [bumpIteration] using h4
              · simp [bumpIteration, consecAfter, ho]
              · simpa using hmf
          | false =>
              by_cases hge : maxFailures ≤ s.consecutive_failures + 1
              · have heq : s.consecutive_failures + 1 = maxFailures := by omega
                rw [taskLoopAux_succ_failmax estop outcomes maxFailures f s h1 he ho hge]
                unfold LoopPost handleTaskCompletion handleMaxFailures notifyCompletion
                  bumpIteration
                simp only [h4, heq]
                refine ⟨by trivial, by trivial, ?_, by omega,
                  Or.inr (Or.inr ⟨by trivial, by trivial, by simp⟩)⟩
                simp [consecAfter, ho, ← h5, heq]
              · rw [taskLoopAux_succ_fail estop outcomes maxFailures f s h1 he ho (by omega)]
                refine ih _ ?_ ?_ ?_ ?_ ?_ ?_
                · simpa [bumpIteration] using h1
                · simpa [bumpIteration] using h2
                · simpa [bumpIteration] using h3
                · simpa [bumpIteration] using h4
                · simp [bumpIteration, consecAfter, ho, h5]
                · simpa using (by omega : s.consecutive_failures + 1 < maxFailures)

/-- C3.  In any run of the embedded task loop the consecutive-failure
counter always equals the length of the current all-failure suffix of
iteration outcomes (hence it is reset to 0 by a success and incremented
by exactly 1 by a failure), never exceeds `max_failures`, and the run
ends with the max-failures error message exactly when the counter
reached `max_failures`; in that case the task is left not running and
complete. -/
theorem consecutive_failure_counter (estop outcomes : ℕ → Bool)
    (maxIterations maxFailures : ℕ) (hmf : 1 ≤ maxFailures) :
    (runTaskLoop estop outcomes maxIterations maxFailures).consecutive_failures =
      consecAfter outcomes
        (runTaskLoop estop outcomes maxIterations maxFailures).status.current_iteration ∧
    (runTaskLoop estop outcomes maxIterations maxFailures).consecutive_failures ≤
      maxFailures ∧
    ((runTaskLoop estop outcomes maxIterations maxFailures).status.error_message =
        some (maxFailuresMsg maxFailures) ↔
      (runTaskLoop estop outcomes maxIterations maxFailures).consecutive_failures =
        maxFailures) ∧
    ((runTaskLoop estop outcomes maxIterations maxFailures).status.error_message =
        some (maxFailuresMsg maxFailures) →
      (runTaskLoop estop outcomes maxIterations maxFailures).status.is_running = false ∧
      (runTaskLoop estop outcomes maxIterations maxFailures).status.is_complete = true) := by
  simp only [runTaskLoop]
  have hpost := taskLoopAux_spec estop outcomes maxFailures hmf maxIterations {}
    rfl rfl rfl rfl rfl hmf
  obtain ⟨hcomp, hrun, htrack, hle, hcase⟩ := hpost
  refine ⟨htrack, hle, ⟨?_, ?_⟩, fun _ => ⟨hrun, hcomp⟩⟩
  · intro herr
    rcases hcase with ⟨he, _, _⟩ | ⟨he, _, _, _⟩ | ⟨_, hc, _⟩
    · rw [he] at herr; exact absurd herr (by simp)
    · rw [he] at herr
      rw [Option.some_inj] at herr
      exact absurd herr.symm (maxFailuresMsg_ne_emergency maxFailures)
    · exact hc
  · intro hcnt
    rcases hcase with ⟨_, hlt, _⟩ | ⟨_, hlt, _, _⟩ | ⟨he, _, _⟩
    · omega
    · omega
    · exact he

/-- C3 witness: with every iteration failing and `max_failures = 2`, the
run stops with counter 2 and the max-failures message. -/
theorem consecutive_failure_counter_witness :
    (runTaskLoop (fun _ => false) (fun _ => false) 3 2).status.error_message =
      some (maxFailuresMsg 2) := by
  have h := consecutive_failure_counter (fun _ => false) (fun _ => false) 3 2 (by decide)
  exact h.2.2.1.mpr (by decide)

/-- C10.  Every exit of the task loop — including the emergency-stop and
max-consecutive-failures break paths — falls through to
`_handle_task_completion`, so `is_complete` ends up `true` even for
failed runs, and on those break paths the completion callbacks fire
twice: first with the specific failure message, then once more from the
completion handler with the recorded error message. -/
theorem loop_exit_unified_completion (estop outcomes : ℕ → Bool)
    (maxIterations maxFailures : ℕ) (hmf : 1 ≤ maxFailures) :
    (runTaskLoop estop outcomes maxIterations maxFailures).status.is_complete = true ∧
    ((runTaskLoop estop outcomes maxIterations maxFailures).status.error_message =
        some "Emergency stop activated" →
      (runTaskLoop estop outcomes maxIterations maxFailures).notices =
        [(false, "Emergency stop"), (false, "Emergency stop activated")]) ∧
    ((runTaskLoop estop outcomes maxIterations maxFailures).status.error_message =
        some (maxFailuresMsg maxFailures) →
      (runTaskLoop estop outcomes maxIterations maxFailures).notices =
        [(false, "Max failures reached"), (false, maxFailuresMsg maxFailures)]) ∧
    ((runTaskLoop estop outcomes maxIterations maxFailures).status.error_message = none →
      (runTaskLoop estop outcomes maxIterations maxFailures).notices =
        [(true, "Task completed")]) := by
  simp only [runTaskLoop]
  have hpost := taskLoopAux_spec estop outcomes maxFailures hmf maxIterations {}
    rfl rfl rfl rfl rfl hmf
  obtain ⟨hcomp, _, _, _, hcase⟩ := hpost
  refine ⟨hcomp, ?_, ?_, ?_⟩
  · intro herr
    rcases hcase with ⟨he, _, _⟩ | ⟨_, _, _, hn⟩ | ⟨he, _, _⟩
    · rw [he] at herr; exact absurd herr (by simp)
    · exact hn
    · rw [he] at herr
      rw [Option.some_inj] at herr
      exact absurd herr (maxFailuresMsg_ne_emergency maxFailures)
  · intro herr
    rcases hcase with ⟨he, _, _⟩ | ⟨he, _, _, _⟩ | ⟨_, _, hn⟩
    · rw [he] at herr; exact absurd herr (by simp)
    · rw [he] at herr
      rw [Option.some_inj] at herr
      exact absurd herr.symm (maxFailuresMsg_ne_emergency maxFailures)
    · exact hn
  · intro herr
    rcases hcase with ⟨_, _, hn⟩ | ⟨he, _, _, _⟩ | ⟨he, _, _⟩
    · exact hn
    · rw [he] at herr; exact absurd herr (by simp)
    · rw [he] at herr; exact absurd herr (by simp)

/-- C10 witness: a run stopped by the emergency flag at the first
iteration boundary ends complete and with the two completion
notifications, the specific one first. -/
theorem loop_exit_unified_completion_witness :
    (runTaskLoop (fun _ => true) (fun _ => true) 1 2).status.is_complete = true ∧
    (runTaskLoop (fun _ => true) (fun _ => true) 1 2).notices =
      [(false, "Emergency stop"), (false, "Emergency stop activated")] := by
  have h := loop_exit_unified_completion (fun _ => true) (fun _ => true) 1 2 (by decide)
  exact ⟨h.1, h.2.1 (by decide)⟩

/-! ## C4: the Oracle Client never raises and falls back deterministically -/

/-- C4.  `VisionEngine.analyze_screenshot` is total over its inputs (no
exception crosses its boundary in the embedding) and returns the fixed
fallback plan — `action_type = "wait"`, `confidence = 1`, reasoning
marked as a fallback — on each of its three failure modes: transport
failure, a response whose extracted braces region does not decode, and
a plan that fails `_validate_action_plan`. -/
theorem oracle_client_fallback (decode : String → Option OracleData)
    (shotW shotH screenW screenH : ℕ) :
    analyzeScreenshot none decode shotW shotH screenW screenH = fallbackAction ∧
    (∀ text, decode (extractBraces text) = none →
      analyzeScreenshot (some text) decode shotW shotH screenW screenH = fallbackAction) ∧
    (∀ text,
      validateActionPlan (planAfterMapping decode text shotW shotH screenW screenH) = false →
      analyzeScreenshot (some text) decode shotW shotH screenW screenH = fallbackAction) ∧
    (fallbackAction.action_type = "wait" ∧ fallbackAction.confidence = 1 ∧
      strContains (lowerStr fallbackAction.reasoning) "fallback" = true) := by
  refine ⟨rfl, ?_, ?_, by decide⟩
  · intro text hdec
    have hparse : parseActionResponse decode text = fallbackAction := by
      unfold parseActionResponse
      rw [hdec]
    have hmap : planAfterMapping decode text shotW shotH screenW screenH = fallbackAction := by
      unfold planAfterMapping
      rw [hparse]
      rfl
    show (if validateActionPlan (planAfterMapping decode text shotW shotH screenW screenH)
        then planAfterMapping decode text shotW shotH screenW screenH
        else fallbackAction) = fallbackAction
    rw [hmap]
    rw [if_pos (by decide)]
  · intro text hval
    show (if validateActionPlan (planAfterMapping decode text shotW shotH screenW screenH)
        then planAfterMapping decode text shotW shotH screenW screenH
        else fallbackAction) = fallbackAction
    rw [hval]
    rw [if_neg (by simp)]

/-- C4 witness: a transport failure and an undecodable response both
yield the fallback plan on concrete inputs. -/
theorem oracle_client_fallback_witness :
    analyzeScreenshot (some "no structured object here") (fun _ => none) 2 2 2 2 =
      fallbackAction := by
  exact (oracle_client_fallback (fun _ => none) 2 2 2 2).2.1 "no structured object here" rfl

/-! ## Helper lemmas for the Coordinate Mapper -/

lemma pyInt_intCast (m : ℤ) : pyInt ((m : ℚ)) = m := by
  unfold pyInt Rat.floor Rat.ceil
  rw [Rat.den_intCast, Rat.num_intCast]
  simp

lemma mapCoordinates_fail (c : ℚ × ℚ) (shotW shotH screenW screenH : ℕ)
    (h : shotW = 0 ∨ shotH = 0) :
    mapCoordinates c shotW shotH screenW screenH = c := by
  unfold mapCoordinates
  rw [if_pos h]

lemma mapCoordinates_ratio (x y : ℚ) (shotW shotH screenW screenH : ℕ)
    (hw : shotW ≠ 0) (hh : shotH ≠ 0) (hr : isRatioPair x y) :
    mapCoordinates (x, y) shotW shotH screenW screenH =
      screenMap (x * shotW, y * shotH) shotW shotH screenW screenH := by
  unfold mapCoordinates
  rw [if_neg (by push_neg; exact ⟨hw, hh⟩)]
  rw [if_pos hr]

lemma mapCoordinates_pixel (x y : ℚ) (shotW shotH screenW screenH : ℕ)
    (hw : shotW ≠ 0) (hh : shotH ≠ 0) (hr : ¬ isRatioPair x y) :
    mapCoordinates (x, y) shotW shotH screenW screenH =
      screenMap (x, y) shotW shotH screenW screenH := by
  unfold mapCoordinates
  rw [if_neg (by push_neg; exact ⟨hw, hh⟩)]
  rw [if_neg hr]

/-! ## C5: ratio detection and conversion order -/

/-- C5.  With nonzero screenshot dimensions, a coordinate pair with both
components in `[0,1]` is first multiplied by the screenshot
width/height and only then run through the screen-mapping stage, while
a pair with any component outside `[0,1]` is fed to the screen mapping
unchanged — it is never ratio-converted. -/
theorem ratio_conversion_before_mapping (x y : ℚ) (shotW shotH screenW screenH : ℕ)
    (hw : shotW ≠ 0) (hh : shotH ≠ 0) :
    (isRatioPair x y →
      mapCoordinates (x, y) shotW shotH screenW screenH =
        screenMap (x * shotW, y * shotH) shotW shotH screenW screenH) ∧
    (¬ isRatioPair x y →
      mapCoordinates (x, y) shotW shotH screenW screenH =
        screenMap (x, y) shotW shotH screenW screenH) :=
  ⟨fun hr => mapCoordinates_ratio x y shotW shotH screenW screenH hw hh hr,
   fun hr => mapCoordinates_pixel x y shotW shotH screenW screenH hw hh hr⟩

/-- C5 witness: the ratio pair `(1/2, 1/2)` on a `200×100` screenshot
and a `400×300` screen is converted to screenshot pixels `(100, 50)`
first and then mapped, landing on screen pixel `(200, 150)`. -/
theorem ratio_conversion_before_mapping_witness :
    mapCoordinates (1/2, 1/2) 200 100 400 300 =
      screenMap ((1/2 : ℚ) * (200 : ℕ), (1/2 : ℚ) * (100 : ℕ)) 200 100 400 300 ∧
    mapCoordinates (1/2, 1/2) 200 100 400 300 = (((200 : ℤ) : ℚ), ((150 : ℤ) : ℚ)) := by
  have h := (ratio_conversion_before_mapping (1/2) (1/2) 200 100 400 300
    (by norm_num) (by norm_num)).1 (by constructor <;> norm_num)
  refine ⟨h, h.trans ?_⟩
  unfold screenMap
  have e1 : ((1/2 : ℚ) * (200 : ℕ), (1/2 : ℚ) * (100 : ℕ)).1 * ((400 : ℕ) : ℚ) / ((200 : ℕ) : ℚ)
      = ((200 : ℤ) : ℚ) := by norm_num
  have e2 : ((1/2 : ℚ) * (200 : ℕ), (1/2 : ℚ) * (100 : ℕ)).2 * ((300 : ℕ) : ℚ) / ((100 : ℕ) : ℚ)
      = ((150 : ℤ) : ℚ) := by norm_num
  rw [e1, e2, pyInt_intCast, pyInt_intCast]

/-! ## C6: the Coordinate Mapper is not the identity at the ratio corner -/

/-- C6 counterexample: with screen dimensions equal to screenshot
dimensions (100×100), the integer pixel coordinate `(0, 1)` is treated
as a ratio pair and mapped to `(0, 100)`, so the mapper is not the
identity there. -/
theorem coordinate_mapper_corner_counterexample :
    mapCoordinates (0, 1) 100 100 100 100 = ((0 : ℚ), (100 : ℚ)) ∧
    mapCoordinates (0, 1) 100 100 100 100 ≠ ((0 : ℚ), (1 : ℚ)) := by
  have hr : isRatioPair (0 : ℚ) 1 := by constructor <;> norm_num
  have h := mapCoordinates_ratio 0 1 100 100 100 100 (by norm_num) (by norm_num) hr
  have hval : mapCoordinates (0, 1) 100 100 100 100 = ((0 : ℚ), (100 : ℚ)) := by
    rw [h]
    unfold screenMap
    have e1 : ((0 : ℚ) * (100 : ℕ), (1 : ℚ) * (100 : ℕ)).1 * ((100 : ℕ) : ℚ) / ((100 : ℕ) : ℚ)
        = ((0 : ℤ) : ℚ) := by norm_num
    have e2 : ((0 : ℚ) * (100 : ℕ), (1 : ℚ) * (100 : ℕ)).2 * ((100 : ℕ) : ℚ) / ((100 : ℕ) : ℚ)
        = ((100 : ℤ) : ℚ) := by norm_num
    rw [e1, e2, pyInt_intCast, pyInt_intCast]
    norm_num
  refine ⟨hval, ?_⟩
  rw [hval]
  intro hEq
  have := congrArg Prod.snd hEq
  norm_num at this

/-- C6 (amended).  On integer pixel pairs that are not both inside
`[0,1]` the mapper is the identity whenever the screen dimensions equal
the screenshot dimensions; on any pair that is not ratio-detected each
axis is mapped independently to the Python-int truncation of
`input × screen/screenshot`; and on the internal failure path (a zero
screenshot dimension) the unscaled input is returned. -/
theorem coordinate_mapper_amended (m n : ℤ) (x y : ℚ)
    (shotW shotH screenW screenH : ℕ) :
    (¬ isRatioPair (m : ℚ) (n : ℚ) → shotW = screenW → shotH = screenH →
      mapCoordinates ((m : ℚ), (n : ℚ)) shotW shotH screenW screenH =
        ((m : ℚ), (n : ℚ))) ∧
    (shotW ≠ 0 → shotH ≠ 0 → ¬ isRatioPair x y →
      mapCoordinates (x, y) shotW shotH screenW screenH =
        ((pyInt (x * screenW / shotW) : ℚ), (pyInt (y * screenH / shotH) : ℚ))) ∧
    (shotW = 0 ∨ shotH = 0 →
      mapCoordinates (x, y) shotW shotH screenW screenH = (x, y)) := by
  refine ⟨?_, ?_, mapCoordinates_fail (x, y) shotW shotH screenW screenH⟩
  · intro hm hW hH
    by_cases h0 : shotW = 0 ∨ shotH = 0
    · exact mapCoordinates_fail _ shotW shotH screenW screenH h0
    · push_neg at h0
      rw [mapCoordinates_pixel (m : ℚ) (n : ℚ) shotW shotH screenW screenH h0.1 h0.2 hm]
      unfold screenMap
      have hwq : ((shotW : ℕ) : ℚ) ≠ 0 := Nat.cast_ne_zero.mpr h0.1
      have hhq : ((shotH : ℕ) : ℚ) ≠ 0 := Nat.cast_ne_zero.mpr h0.2
      rw [← hW, ← hH]
      rw [show ((m : ℚ), (n : ℚ)).1 * (shotW : ℚ) / (shotW : ℚ) = (m : ℚ) from
        mul_div_cancel_right₀ _ hwq]
      rw [show ((m : ℚ), (n : ℚ)).2 * (shotH : ℚ) / (shotH : ℚ) = (n : ℚ) from
        mul_div_cancel_right₀ _ hhq]
      rw [pyInt_intCast, pyInt_intCast]
  · intro hw hh hm
    rw [mapCoordinates_pixel x y shotW shotH screenW screenH hw hh hm]
    rfl

/-- C6 amended witness: the integer pixel pair `(5, 7)` is left
unchanged when the screen equals the screenshot (`100×100`). -/
theorem coordinate_mapper_amended_witness :
    mapCoordinates (((5 : ℤ) : ℚ), ((7 : ℤ) : ℚ)) 100 100 100 100 =
      (((5 : ℤ) : ℚ), ((7 : ℤ) : ℚ)) := by
  refine (coordinate_mapper_amended 5 7 0 0 100 100 100 100).1 ?_ rfl rfl
  intro hr
  have h5 : ((5 : ℤ) : ℚ) ≤ 1 := hr.2.1
  norm_num at h5

/-! ## C7: verification denial downgrades the execution result -/

/-- C7.  When both frames are present and the oracle's verification
verdict is not `verified`, the verification stage of `execute_action`
downgrades an actuation-successful `ExecutionResult` to `success =
false` with a verification error message (the actuation itself had
reported success). -/
theorem verification_denial_downgrades (verdict : VerificationVerdict)
    (result : ExecutionResult)
    (hs : result.success = true)
    (hb : result.before_screenshot ≠ none)
    (ha : result.after_screenshot ≠ none)
    (hv : verdict.verified = false) :
    (executeActionVerifyStage true verdict result).success = false ∧
    (executeActionVerifyStage true verdict result).error_message =
      some ("Action verification failed: " ++ verdict.message) ∧
    (executeActionVerifyStage true verdict result).action_verified = false ∧
    result.success = true := by
  unfold executeActionVerifyStage verifyActionSuccess
  rw [if_pos ⟨rfl, hs⟩]
  rw [if_neg (by push_neg; exact ⟨hb, ha⟩)]
  rw [if_neg (by rw [hv]; exact Bool.false_ne_true)]
  exact ⟨rfl, rfl, rfl, hs⟩

/-- C7 witness: a concrete successful click result with both frames is
downgraded to failure by a non-verified verdict. -/
theorem verification_denial_downgrades_witness :
    (executeActionVerifyStage true
      { verified := false, message := "no visible change" }
      { success := true, before_screenshot := some 0,
        after_screenshot := some 1 }).success = false ∧
    (executeActionVerifyStage true
      { verified := false, message := "no visible change" }
      { success := true, before_screenshot := some 0,
        after_screenshot := some 1 }).error_message =
      some ("Action verification failed: " ++ "no visible change") := by
  have h := verification_denial_downgrades
    { verified := false, message := "no visible change" }
    { success := true, before_screenshot := some 0, after_screenshot := some 1 }
    rfl (by simp) (by simp) rfl
  exact ⟨h.1, h.2.1⟩

/-! ## C8: the confirmation gate cannot actually deny -/

/-- C8.  The confirmation policy in `execute_action` flags the example
plan (its description matches the keyword set), yet
`_get_user_confirmation` returns `True` for every plan, so the
"declined" branch is unreachable and actuation dispatch proceeds with
no external approval ever requested — contrary to the documented
intent of an explicit user confirmation for high-risk actions. -/
theorem confirmation_gate_auto_approves :
    (∀ p : ActionPlan, getUserConfirmation p = true) ∧
    requiresConfirmation confirmationExamplePlan = true ∧
    executeActionGate false confirmationExamplePlan 100 100 = ExecuteGate.dispatch := by
  exact ⟨fun _ => rfl, by decide, by decide⟩

/-! ## C9: bounded histories -/

lemma handleSuccessfulContext_length_le (ctx : VisionContext) (plan : ActionPlan)
    (shot : Option Frame) (h : ctx.screenshots_history.length ≤ 10) :
    (handleSuccessfulContext ctx plan shot).screenshots_history.length ≤ 10 := by
  unfold handleSuccessfulContext
  cases shot with
  | none => exact h
  | some s =>
      show (if (ctx.screenshots_history ++ [s]).length > 10
          then List.drop 1 (ctx.screenshots_history ++ [s])
          else ctx.screenshots_history ++ [s]).length ≤ 10
      by_cases hlen : (ctx.screenshots_history ++ [s]).length > 10
      · rw [if_pos hlen]
        simp only [List.length_drop, List.length_append, List.length_cons,
          List.length_nil] at *
        omega
      · rw [if_neg hlen]
        simp only [List.length_append, List.length_cons, List.length_nil] at *
        omega

lemma runContextEvents_cons : ∀ (events : List (ActionPlan × Option Frame))
    (ctx : VisionContext), ctx.screenshots_history.length ≤ 10 →
    (events.foldl (fun c e => handleSuccessfulContext c e.1 e.2) ctx).screenshots_history.length
      ≤ 10 := by
  intro events
  induction events with
  | nil => intro ctx h; exact h
  | cons e rest ih =>
      intro ctx h
      exact ih _ (handleSuccessfulContext_length_le ctx e.1 e.2 h)

/-- C9.  Over any run starting from a fresh context: the frame history
never holds more than 10 frames; once it holds exactly 10, appending a
frame evicts precisely the oldest one; and the action history consulted
by the oracle prompt (`previous_actions[-5:]`) never exceeds 5 entries
for any context whatsoever. -/
theorem bounded_histories (task : String) (events : List (ActionPlan × Option Frame)) :
    (runContextEvents task events).screenshots_history.length ≤ 10 ∧
    (∀ (ctx : VisionContext) (plan : ActionPlan) (s : Frame),
      ctx.screenshots_history.length = 10 →
      (handleSuccessfulContext ctx plan (some s)).screenshots_history =
        ctx.screenshots_history.drop 1 ++ [s]) ∧
    (∀ ctx : VisionContext, (recentActions ctx).length ≤ 5) := by
  refine ⟨?_, ?_, ?_⟩
  · unfold runContextEvents
    exact runContextEvents_cons events (initialContext task) (by simp [initialContext])
  · intro ctx plan s hlen
    unfold handleSuccessfulContext
    show (if (ctx.screenshots_history ++ [s]).length > 10
        then List.drop 1 (ctx.screenshots_history ++ [s])
        else ctx.screenshots_history ++ [s]) =
      List.drop 1 ctx.screenshots_history ++ [s]
    rw [if_pos (by simp [hlen])]
    rw [List.drop_append_of_le_length (by omega)]
  · intro ctx
    unfold recentActions lastN
    rw [List.length_drop]
    omega

/-- C9 witness: a fresh context grown by eleven successful iterations
holds exactly 10 frames; appending to a full history drops the head;
and a 7-action history is consulted as its last 5 actions. -/
theorem bounded_histories_witness :
    (runContextEvents "t"
      ((List.range 11).map (fun i => (fallbackAction, some i)))).screenshots_history.length
      ≤ 10 ∧
    (handleSuccessfulContext
      { task_description := "t", previous_actions := [],
        screenshots_history := [0, 1, 2, 3, 4, 5, 6, 7, 8, 9],
        current_screenshot := 0 }
      fallbackAction (some 10)).screenshots_history =
      [1, 2, 3, 4, 5, 6, 7, 8, 9, 10] ∧
    (recentActions
      { task_description := "t",
        previous_actions := List.replicate 7 fallbackAction,
        screenshots_history := [], current_screenshot := 0 }).length ≤ 5 := by
  have h := bounded_histories "t" ((List.range 11).map (fun i => (fallbackAction, some i)))
  refine ⟨h.1, ?_, h.2.2 _⟩
  have h2 := h.2.1
    { task_description := "t", previous_actions := [],
      screenshots_history := [0, 1, 2, 3, 4, 5, 6, 7, 8, 9],
      current_screenshot := 0 }
    fallbackAction 10 (by simp)
  rw [h2]
  simp
